import Mathlib

/-!
Verification of the Risk Analysis & Scoring Core of the RiskManagement
repository.  The JavaScript services under `server/services` are shallowly
embedded as Lean functions over `ℚ` (and `ℝ` where the source uses a square
root).  JavaScript numbers are modelled as exact rationals; `toFixed(2)`
followed by `Number(...)` is modelled by rounding to two decimal places with
ties going up, which matches the ECMAScript "larger candidate wins ties"
rule.  JavaScript truthiness on optional numeric fields (`x || d`, where a
present value of `0` still selects the default `d`) is modelled by `jsOr`.
-/

namespace RiskMgmt

/-- Rounding to two decimals, modelling `Number(x.toFixed(2))`. -/
def round2 (q : ℚ) : ℚ := (round (q * 100) : ℤ) / 100

/-- Rounding to three decimals, modelling `Number(x.toFixed(3))`. -/
def round3 (q : ℚ) : ℚ := (round (q * 1000) : ℤ) / 1000

/-- JavaScript `v || d` on an optional numeric field: an absent field or a
present value of `0` both fall back to the default. -/
def jsOr (v : Option ℚ) (d : ℚ) : ℚ :=
  match v with
  | none => d
  | some x => if x = 0 then d else x

/-- JavaScript `s || d` on an optional string field: an absent field or an
empty string both fall back to the default. -/
def jsOrStr (v : Option String) (d : String) : String :=
  match v with
  | none => d
  | some s => if s = "" then d else s

/-- Holding record, from the data model consumed by the services.  `sector`
and the two risk attributes are optional exactly where the source treats
them as possibly absent. -/
structure Holding where
  symbol : String
  securityType : String
  sector : Option String
  marketValue : ℚ
  weight : ℚ
  beta : Option ℚ
  annualizedVolatility : Option ℚ
deriving DecidableEq, Repr

/-! ### Assessment scoring (`scoringEngine.js`, part 1) -/

/-- Risk category record returned by `calculateRiskCategory`. -/
structure RiskCategory where
  name : String
  code : Nat
deriving DecidableEq, Repr

/-- Embedding of `calculateRiskCategory(score)`: the 5-band classification
of a raw assessment score. -/
def calculateRiskCategory (score : ℤ) : RiskCategory :=
  if score ≤ 30 then ⟨"CONSERVATIVE", 1⟩
  else if score ≤ 45 then ⟨"MODERATELY_CONSERVATIVE", 2⟩
  else if score ≤ 55 then ⟨"MODERATE", 3⟩
  else if score ≤ 65 then ⟨"MODERATELY_AGGRESSIVE", 4⟩
  else ⟨"AGGRESSIVE", 5⟩

/-! ### Portfolio risk metrics (`riskEngine` part of `scoringEngine.js`) -/

/-- Embedding of `getDefaultVolatility(sector, securityType)`. -/
def getDefaultVolatility (sector : Option String) (securityType : String) : ℚ :=
  if securityType = "BOND" then 6
  else if securityType = "ETF" then 15
  else
    match sector with
    | some "TECHNOLOGY" => 28
    | some "FINANCIAL" => 22
    | some "HEALTHCARE" => 18
    | some "CONSUMER_DISCRETIONARY" => 20
    | some "CONSUMER_STAPLES" => 14
    | some "UTILITIES" => 12
    | some "ENERGY" => 26
    | some "REAL_ESTATE" => 20
    | some "INDUSTRIALS" => 19
    | some "MATERIALS" => 21
    | some "TELECOMMUNICATIONS" => 18
    | _ => 20

/-- Embedding of `getDefaultBeta(sector, securityType)`. -/
def getDefaultBeta (sector : Option String) (securityType : String) : ℚ :=
  if securityType = "BOND" then 1/10
  else if securityType = "ETF" then 1
  else
    match sector with
    | some "TECHNOLOGY" => 125/100
    | some "FINANCIAL" => 115/100
    | some "HEALTHCARE" => 85/100
    | some "CONSUMER_DISCRETIONARY" => 105/100
    | some "CONSUMER_STAPLES" => 70/100
    | some "UTILITIES" => 60/100
    | some "ENERGY" => 110/100
    | some "REAL_ESTATE" => 95/100
    | some "INDUSTRIALS" => 108/100
    | some "MATERIALS" => 112/100
    | some "TELECOMMUNICATIONS" => 80/100
    | _ => 1

/-- Embedding of `calculatePortfolioVolatility(holdings)`: weighted average
of per-holding volatilities (sector/kind default when absent or zero),
returning `0` for a missing or empty holdings list. -/
def calculatePortfolioVolatility (holdings : Option (List Holding)) : ℚ :=
  match holdings with
  | none => 0
  | some [] => 0
  | some hs =>
    round2 (hs.foldl
      (fun sum h =>
        sum + (h.weight / 100) *
          jsOr h.annualizedVolatility (getDefaultVolatility h.sector h.securityType)) 0)

/-- Embedding of `calculatePortfolioBeta(holdings)`: weighted average of
per-holding betas (sector/kind default when absent or zero), returning
`1.0` for a missing or empty holdings list. -/
def calculatePortfolioBeta (holdings : Option (List Holding)) : ℚ :=
  match holdings with
  | none => 1
  | some [] => 1
  | some hs =>
    round2 (hs.foldl
      (fun sum h =>
        sum + (h.weight / 100) *
          jsOr h.beta (getDefaultBeta h.sector h.securityType)) 0)

/-! ### Concentration analysis (`concentrationService` part of `scoringEngine.js`) -/

/-- Embedding of `calculateHerfindahlIndex(holdings)`: Σ (weight/100)². -/
def calculateHerfindahlIndex (holdings : List Holding) : ℚ :=
  holdings.foldl (fun sum h => sum + (h.weight / 100) * (h.weight / 100)) 0

/-- Embedding of `calculateEffectivePositions(herfindahlIndex)`. -/
def calculateEffectivePositions (herfindahlIndex : ℚ) : ℚ :=
  if herfindahlIndex > 0 then 1 / herfindahlIndex else 0

/-- Embedding of `determineConcentrationRisk(singleStatus, sectorStatus,
top5Status, herfindahlIndex)`. -/
def determineConcentrationRisk (singleStatus sectorStatus top5Status : String)
    (herfindahlIndex : ℚ) : String :=
  let breachCount := ([singleStatus, sectorStatus, top5Status].filter
    (fun s => s = "BREACHED")).length
  if breachCount ≥ 2 ∨ herfindahlIndex > 15/100 then "HIGH"
  else if breachCount = 1 ∨ herfindahlIndex > 10/100 then "ELEVATED"
  else if herfindahlIndex > 5/100 then "MODERATE"
  else "LOW"

/-- Rank of a concentration risk tier in the order LOW < MODERATE <
ELEVATED < HIGH; used to state monotonicity. -/
def concentrationRiskRank (tier : String) : Nat :=
  if tier = "LOW" then 0
  else if tier = "MODERATE" then 1
  else if tier = "ELEVATED" then 2
  else 3

/-! ### Stress testing (`stressTestService.js`) -/

/-- Shock parameter block of a scenario. -/
structure ShockParameters where
  equityShock : ℚ
  bondShock : ℚ
  creditSpreadChange : ℚ
  volatilitySpike : ℚ
deriving DecidableEq, Repr

/-- Scenario record consumed by the stress test simulator.  The JavaScript
`sectorShocks` object is modelled as an association list. -/
structure Scenario where
  scenarioId : String
  scenarioName : String
  shockParameters : ShockParameters
  sectorShocks : List (String × ℚ)
deriving DecidableEq, Repr

/-- Lookup of `scenario.sectorShocks[sector]`, `none` when the scenario
defines no shock for the sector. -/
def lookupSectorShock (shocks : List (String × ℚ)) (sector : String) : Option ℚ :=
  (shocks.find? (fun p => p.1 = sector)).map (fun p => p.2)

/-- Per-holding stress result returned by `applyStressToHolding`. -/
structure HoldingImpact where
  symbol : String
  sector : String
  currentValue : ℚ
  stressedValue : ℚ
  loss : ℚ
  lossPercent : ℚ
  sectorShock : String
deriving DecidableEq, Repr

/-- Embedding of `applyStressToHolding(holding, scenario)`.  Note the
source computes `scenario.sectorShocks[sector] || equityShock`, so a
sector shock that is defined but equal to `0` falls back to the generic
equity shock; bonds always use `bondShock`. -/
def applyStressToHolding (holding : Holding) (scenario : Scenario) : HoldingImpact :=
  let sector := holding.sector.getD "OTHER"
  let sectorShock :=
    jsOr (lookupSectorShock scenario.sectorShocks sector)
      scenario.shockParameters.equityShock
  let shockPercent :=
    if holding.securityType = "BOND" then scenario.shockParameters.bondShock
    else sectorShock
  let stressedValue := holding.marketValue * (1 + shockPercent / 100)
  let loss := stressedValue - holding.marketValue
  { symbol := holding.symbol
    sector := sector
    currentValue := holding.marketValue
    stressedValue := round2 stressedValue
    loss := round2 loss
    lossPercent := round2 shockPercent
    sectorShock := sector }

/-- Portfolio-level impact block of a stress-test result. -/
structure PortfolioImpact where
  currentValue : ℚ
  stressedValue : ℚ
  dollarLoss : ℚ
  percentageLoss : ℚ
  recoveryTime : String
deriving DecidableEq, Repr

/-- Stress-test result (the `scenarioResults` block of `runStressTest`
restricted to the scenario identity, portfolio impact and per-holding
impacts; the ranked `worstHit`/`bestProtected` extracts and the
profile comparison are not needed by any property below). -/
structure StressResult where
  scenarioId : String
  scenarioName : String
  portfolioImpact : PortfolioImpact
  holdingImpacts : List HoldingImpact
deriving DecidableEq, Repr

/-- Embedding of the portfolio-impact computation of
`runStressTest(investorId, scenarioId, portfolioData)` once the scenario
has been resolved: every holding is shocked, the rounded per-holding
stressed values are summed, and the recovery time is the step function of
the (unrounded) percentage loss used by the source. -/
def runStressTest (scenario : Scenario) (totalValue : ℚ)
    (holdings : List Holding) : StressResult :=
  let holdingImpacts := holdings.map (fun h => applyStressToHolding h scenario)
  let stressedValue := (holdingImpacts.map (fun h => h.stressedValue)).sum
  let dollarLoss := stressedValue - totalValue
  let percentageLoss := dollarLoss / totalValue * 100
  let recoveryTime :=
    if percentageLoss > -20 then "6-12 months (estimated)"
    else if percentageLoss > -30 then "12-24 months (estimated)"
    else if percentageLoss > -40 then "24-36 months (estimated)"
    else "36+ months (estimated)"
  { scenarioId := scenario.scenarioId
    scenarioName := scenario.scenarioName
    portfolioImpact :=
      { currentValue := totalValue
        stressedValue := round2 stressedValue
        dollarLoss := round2 dollarLoss
        percentageLoss := round2 percentageLoss
        recoveryTime := recoveryTime }
    holdingImpacts := holdingImpacts }

/-! ### Suitability evaluation (`suitabilityService.js`) -/

/-- Result of one suitability dimension evaluator: the numeric score and
the status enum (the human-readable detail string has no bearing on any
property and is omitted). -/
structure DimensionResult where
  score : ℚ
  status : String
deriving DecidableEq, Repr

/-- Asset-class allocation percentages. -/
structure Allocation where
  equities : ℚ
  fixedIncome : ℚ
  alternatives : ℚ
  cash : ℚ
deriving DecidableEq, Repr

/-- Result of the allocation-alignment dimension, which additionally
carries the compared allocations (consumed by the recommendation
generator). -/
structure AllocationDimensionResult where
  score : ℚ
  status : String
  actual : Allocation
  recommended : Allocation
deriving DecidableEq, Repr

/-- Embedding of `evaluateRiskAlignment(portfolioVolatility,
maxVolatilityTolerance, maxDrawdown, maxDrawdownTolerance)`. -/
def evaluateRiskAlignment (portfolioVolatility maxVolatilityTolerance
    maxDrawdown maxDrawdownTolerance : ℚ) : DimensionResult :=
  let volDiff := portfolioVolatility - maxVolatilityTolerance
  let drawdownDiff := |maxDrawdown| - maxDrawdownTolerance
  if volDiff ≤ 2 ∧ drawdownDiff ≤ 5 then ⟨85, "ALIGNED"⟩
  else if volDiff ≤ 5 ∧ drawdownDiff ≤ 10 then ⟨70, "MINOR_DEVIATION"⟩
  else ⟨45, "MISALIGNED"⟩

/-- Embedding of `evaluateAllocationAlignment(actual, recommended)`. -/
def evaluateAllocationAlignment (actual recommended : Allocation) :
    AllocationDimensionResult :=
  let equityDiff := |actual.equities - recommended.equities|
  let fixedIncomeDiff := |actual.fixedIncome - recommended.fixedIncome|
  if equityDiff ≤ 5 ∧ fixedIncomeDiff ≤ 5 then
    ⟨90, "ALIGNED", actual, recommended⟩
  else if equityDiff ≤ 15 ∧ fixedIncomeDiff ≤ 15 then
    ⟨72, "MINOR_DEVIATION", actual, recommended⟩
  else ⟨50, "SIGNIFICANT_DEVIATION", actual, recommended⟩

/-- Top weight of a sector-concentration breakdown: the source sorts the
entries by weight descending and takes the first, which is the maximum
weight (`0` when the breakdown is empty). -/
def topSectorWeight (sectorConcentration : List (String × ℚ)) : ℚ :=
  match sectorConcentration with
  | [] => 0
  | p :: rest => (rest.map (fun q => q.2)).foldl max p.2

/-- Embedding of `evaluateConcentrationCompliance(topHoldingWeight,
sectorConcentration, maxConcentrationLimit)`; the sector check gets a
+5 point buffer over the single-position limit. -/
def evaluateConcentrationCompliance (topHoldingWeight : ℚ)
    (sectorConcentration : List (String × ℚ)) (maxConcentrationLimit : ℚ) :
    DimensionResult :=
  let topSector := topSectorWeight sectorConcentration
  let singleBreach := topHoldingWeight > maxConcentrationLimit
  let sectorBreach := topSector > maxConcentrationLimit + 5
  if ¬singleBreach ∧ ¬sectorBreach then ⟨95, "COMPLIANT"⟩
  else if singleBreach ∧ ¬sectorBreach then ⟨60, "MINOR_NON_COMPLIANT"⟩
  else ⟨45, "NON_COMPLIANT"⟩

/-- Embedding of `evaluateTimeHorizonFit(investorHorizon,
portfolioVolatility)`. -/
def evaluateTimeHorizonFit (investorHorizon : String)
    (portfolioVolatility : ℚ) : DimensionResult :=
  if investorHorizon = "LONG_TERM" then ⟨85, "ALIGNED"⟩
  else if investorHorizon = "MEDIUM_TERM" then
    if portfolioVolatility > 20 then ⟨65, "CAUTION"⟩ else ⟨80, "ALIGNED"⟩
  else
    if portfolioVolatility > 15 then ⟨40, "MISALIGNED"⟩ else ⟨75, "ALIGNED"⟩

/-- The four suitability dimensions, in the fixed order the source builds
them. -/
structure SuitabilityDimensions where
  riskAlignment : DimensionResult
  allocationAlignment : AllocationDimensionResult
  concentrationCompliance : DimensionResult
  timeHorizonFit : DimensionResult
deriving DecidableEq, Repr

/-- Overall suitability block returned by `calculateOverallSuitability`. -/
structure OverallSuitability where
  overallRating : String
  overallScore : ℤ
  recommendation : String
deriving DecidableEq, Repr

/-- Rating branch of `calculateOverallSuitability`, a function of the
unrounded average score (the source tests `avgScore`, not the rounded
`overallScore`). -/
def ratingOfAvg (avgScore : ℚ) : String :=
  if avgScore ≥ 80 then "HIGHLY_SUITABLE"
  else if avgScore ≥ 70 then "SUITABLE"
  else if avgScore ≥ 60 then "SUITABLE_WITH_CAVEATS"
  else if avgScore ≥ 50 then "REVIEW_REQUIRED"
  else "NOT_SUITABLE"

/-- Canned recommendation branch of `calculateOverallSuitability`, on the
same conditions as `ratingOfAvg`. -/
def recommendationOfAvg (avgScore : ℚ) : String :=
  if avgScore ≥ 80 then
    "Portfolio is well-aligned with investor risk profile and objectives"
  else if avgScore ≥ 70 then
    "Portfolio is generally suitable with minor areas for improvement"
  else if avgScore ≥ 60 then
    "Portfolio is suitable but requires attention to specific risk areas"
  else if avgScore ≥ 50 then
    "Portfolio requires review and potential adjustments to align with risk profile"
  else
    "Portfolio is not suitable for investor risk profile - immediate action required"

/-- Embedding of `calculateOverallSuitability(dimensions)`: the average of
the four dimension scores, with the rating banded on the unrounded
average and the reported score rounded with `Math.round`. -/
def calculateOverallSuitability (dimensions : SuitabilityDimensions) :
    OverallSuitability :=
  let avgScore :=
    (dimensions.riskAlignment.score + dimensions.allocationAlignment.score +
      dimensions.concentrationCompliance.score +
      dimensions.timeHorizonFit.score) / 4
  ⟨ratingOfAvg avgScore, round avgScore, recommendationOfAvg avgScore⟩

/-- Specification reading of the 5-tier rating in claim C1: the band of
the (already rounded) integer overall score. -/
def ratingOfRoundedScoreSpec (score : ℤ) : String :=
  if score ≥ 80 then "HIGHLY_SUITABLE"
  else if score ≥ 70 then "SUITABLE"
  else if score ≥ 60 then "SUITABLE_WITH_CAVEATS"
  else if score ≥ 50 then "REVIEW_REQUIRED"
  else "NOT_SUITABLE"

/-! ### Value at Risk (`riskEngine` part of `scoringEngine.js`)

The source divides the annual volatility by `Math.sqrt(12)`, so this part
of the embedding lives in `ℝ`. -/

/-- Rounding a real to two decimals, modelling `Number(x.toFixed(2))`. -/
noncomputable def round2R (x : ℝ) : ℝ := (round (x * 100) : ℤ) / 100

/-- Result record of `calculateVaR`. -/
structure VaRResult where
  var95_percent : ℝ
  var95_dollar : ℝ
  var99_percent : ℝ
  var99_dollar : ℝ
  timeHorizon : String

/-- Embedding of `calculateVaR(totalValue, portfolioVolatility)`:
parametric monthly VaR with monthlyVol = annualVol/√12; the dollar
figures are computed from the unrounded percentages. -/
noncomputable def calculateVaR (totalValue portfolioVolatility : ℝ) : VaRResult :=
  let monthlyVol := portfolioVolatility / Real.sqrt 12
  let var95Percent := -1.645 * monthlyVol
  let var99Percent := -2.326 * monthlyVol
  { var95_percent := round2R var95Percent
    var95_dollar := round2R (totalValue * (var95Percent / 100))
    var99_percent := round2R var99Percent
    var99_dollar := round2R (totalValue * (var99Percent / 100))
    timeHorizon := "1_MONTH" }

/-! ### Recommendation generation (`recommendationService.js`)

The service draws fresh identifiers from the datastore's monotone counter
(`generateId('recommendation')` executes `counters[type]++`) and stamps
the current time.  That hidden state is made explicit here: the counter is
threaded through as a `Nat`, and the two clock-derived strings (the ISO
timestamp and the formatted next-review date 90 days out) are passed in as
parameters. -/

/-- Zero-padding to width 3, modelling `String(id).padStart(3, '0')`. -/
def pad3 (n : Nat) : String :=
  let s := toString n
  if s.length ≥ 3 then s else String.mk (List.replicate (3 - s.length) '0') ++ s

/-- Embedding of the datastore's `generateId('recommendation')`: returns
the fresh identifier and the advanced counter. -/
def generateIdRec (c : Nat) : String × Nat := ("REC-" ++ pad3 c, c + 1)

/-- Single-position block of a concentration analysis, as read by the
recommendation generator. -/
structure SinglePositionAnalysis where
  topHolding : String
  topHoldingWeight : ℚ
  limit : ℚ
  status : String
  breach : ℚ
deriving DecidableEq, Repr

/-- Sector block of a concentration analysis, as read by the
recommendation generator. -/
structure SectorConcentrationAnalysis where
  topSector : String
  topSectorWeight : ℚ
  limit : ℚ
  status : String
  breach : ℚ
deriving DecidableEq, Repr

/-- Portion of `analyzeConcentration`'s nested result that the
recommendation generator reads (it accesses
`concentrationAnalysis.concentrationAnalysis.{singlePosition,sectorConcentration}`,
each guarded by a truthiness test, hence the `Option`s). -/
structure ConcentrationInner where
  singlePosition : Option SinglePositionAnalysis
  sectorConcentration : Option SectorConcentrationAnalysis
deriving DecidableEq, Repr

/-- Outer wrapper of a concentration-analysis result. -/
structure ConcentrationOuter where
  concentrationAnalysis : ConcentrationInner
deriving DecidableEq, Repr

/-- Dimension block of a suitability assessment as read by the
recommendation generator. -/
structure SuitabilityDimensionsLite where
  allocationAlignment : Option AllocationDimensionResult
deriving DecidableEq, Repr

/-- Inner suitability-assessment record as read by the recommendation
generator. -/
structure SuitabilityInner where
  overallScore : ℚ
  overallRating : String
  dimensions : Option SuitabilityDimensionsLite
deriving DecidableEq, Repr

/-- Outer wrapper of a suitability result (`checkSuitability` nests its
payload under a `suitabilityAssessment` key). -/
structure SuitabilityOuter where
  suitabilityAssessment : SuitabilityInner
deriving DecidableEq, Repr

/-- Portion of a portfolio-risk result read by the recommendation
generator. -/
structure PortfolioRiskLite where
  portfolioVolatility : ℚ
deriving DecidableEq, Repr

/-- Input bundle `analysisData` of `generateRecommendations`; every
section is optional and tested for truthiness by the source. -/
structure AnalysisData where
  concentrationAnalysis : Option ConcentrationOuter
  suitabilityAssessment : Option SuitabilityOuter
  portfolioRisk : Option PortfolioRiskLite
deriving DecidableEq, Repr

/-- One generated recommendation (the free-form `expectedImpact` object,
never read by any property, is omitted). -/
structure Recommendation where
  recommendationId : String
  category : String
  priority : String
  title : String
  description : String
  currentValue : ℚ
  targetValue : ℚ
deriving DecidableEq, Repr

/-- Overall-assessment block of a recommendation record. -/
structure OverallAssessment where
  suitabilityScore : ℚ
  suitabilityRating : String
  summary : String
deriving DecidableEq, Repr

/-- Recommendation record returned (and persisted) by
`generateRecommendations`. -/
structure RecommendationRecord where
  recommendationId : String
  investorId : String
  profileId : String
  generatedDate : String
  status : String
  overallAssessment : OverallAssessment
  recommendations : List Recommendation
  nextReviewDate : String
  createdAt : String
deriving DecidableEq, Repr

/-- Rule 1 of the generator: single-position breach yields a REBALANCING
recommendation with id suffix `-A`. -/
def ruleSinglePosition (conc : Option ConcentrationOuter) (c : Nat) :
    List Recommendation × Nat :=
  match conc with
  | none => ([], c)
  | some outer =>
    match outer.concentrationAnalysis.singlePosition with
    | none => ([], c)
    | some sp =>
      if sp.status = "BREACHED" then
        ([{ recommendationId := (generateIdRec c).1 ++ "-A"
            category := "REBALANCING"
            priority := if sp.breach > 10 then "HIGH" else "MEDIUM"
            title := "Reduce " ++ sp.topHolding ++ " Concentration"
            description := "Consider reducing " ++ sp.topHolding ++
              " position from " ++ toString sp.topHoldingWeight ++
              "% to recommended " ++ toString sp.limit ++ "% maximum"
            currentValue := sp.topHoldingWeight
            targetValue := sp.limit }], (generateIdRec c).2)
      else ([], c)

/-- Rule 2 of the generator: sector breach yields a DIVERSIFICATION
recommendation with id suffix `-B`. -/
def ruleSectorConcentration (conc : Option ConcentrationOuter) (c : Nat) :
    List Recommendation × Nat :=
  match conc with
  | none => ([], c)
  | some outer =>
    match outer.concentrationAnalysis.sectorConcentration with
    | none => ([], c)
    | some sec =>
      if sec.status = "BREACHED" then
        ([{ recommendationId := (generateIdRec c).1 ++ "-B"
            category := "DIVERSIFICATION"
            priority := if sec.breach > 15 then "HIGH" else "MEDIUM"
            title := "Reduce " ++ sec.topSector ++ " Sector Exposure"
            description := "Consider reducing " ++ sec.topSector ++
              " sector exposure from " ++ toString sec.topSectorWeight ++
              "% to recommended " ++ toString sec.limit ++ "% maximum"
            currentValue := sec.topSectorWeight
            targetValue := sec.limit }], (generateIdRec c).2)
      else ([], c)

/-- Rule 3 of the generator: an equity-allocation gap over 10 points, when
the allocation dimension scored below 80, yields a REBALANCING
recommendation with id suffix `-C`. -/
def ruleAllocation (suit : Option SuitabilityOuter) (c : Nat) :
    List Recommendation × Nat :=
  match suit with
  | none => ([], c)
  | some s =>
    match s.suitabilityAssessment.dimensions with
    | none => ([], c)
    | some dims =>
      match dims.allocationAlignment with
      | none => ([], c)
      | some alloc =>
        if alloc.score < 80 then
          let equityDiff := alloc.actual.equities - alloc.recommended.equities
          if |equityDiff| > 10 then
            ([{ recommendationId := (generateIdRec c).1 ++ "-C"
                category := "REBALANCING"
                priority := "MEDIUM"
                title := if equityDiff > 0 then "Reduce Equity Exposure"
                  else "Increase Equity Exposure"
                description := "Current equity allocation (" ++
                  toString alloc.actual.equities ++ "%) is " ++
                  toString |equityDiff| ++ "% " ++
                  (if equityDiff > 0 then "above" else "below") ++
                  " recommended level (" ++
                  toString alloc.recommended.equities ++ "%)"
                currentValue := alloc.actual.equities
                targetValue := alloc.recommended.equities }],
              (generateIdRec c).2)
          else ([], c)
        else ([], c)

/-- Rule 4 of the generator: portfolio volatility above 20 yields a
RISK_REDUCTION recommendation with id suffix `-D`. -/
def ruleVolatility (portfolioRisk : Option PortfolioRiskLite) (c : Nat) :
    List Recommendation × Nat :=
  match portfolioRisk with
  | none => ([], c)
  | some pr =>
    if pr.portfolioVolatility > 20 then
      ([{ recommendationId := (generateIdRec c).1 ++ "-D"
          category := "RISK_REDUCTION"
          priority := "MEDIUM"
          title := "Consider Adding Defensive Positions"
          description := "Portfolio volatility is elevated. Adding defensive sectors or bonds could improve risk-adjusted returns"
          currentValue := pr.portfolioVolatility
          targetValue := 18 }], (generateIdRec c).2)
    else ([], c)

/-- Rule 5 of the generator: when a suitability assessment is present and
fewer than 3 recommendations were produced, append the generic INCOME
suggestion with id suffix `-E`. -/
def ruleIncome (hasSuitability : Bool) (recCount : Nat) (c : Nat) :
    List Recommendation × Nat :=
  if hasSuitability ∧ recCount < 3 then
    ([{ recommendationId := (generateIdRec c).1 ++ "-E"
        category := "INCOME"
        priority := "LOW"
        title := "Consider Dividend-Paying Securities"
        description := "Dividend stocks may provide stability and income while maintaining growth potential"
        currentValue := 8
        targetValue := 15 }], (generateIdRec c).2)
  else ([], c)

/-- Embedding of `generateRecommendations(investorId, profileId,
analysisData)`: the five rules fire in order, each drawing a fresh id from
the counter; the final record draws one more id.  Returns the record
together with the advanced counter (the source also appends the record to
the datastore). -/
def generateRecommendations (investorId profileId : String) (a : AnalysisData)
    (nowIso reviewDate : String) (c0 : Nat) : RecommendationRecord × Nat :=
  let sA := ruleSinglePosition a.concentrationAnalysis c0
  let sB := ruleSectorConcentration a.concentrationAnalysis sA.2
  let sC := ruleAllocation a.suitabilityAssessment sB.2
  let sD := ruleVolatility a.portfolioRisk sC.2
  let recs0 := sA.1 ++ sB.1 ++ sC.1 ++ sD.1
  let sE := ruleIncome a.suitabilityAssessment.isSome recs0.length sD.2
  let recommendations := recs0 ++ sE.1
  let suitabilityScore :=
    jsOr ((a.suitabilityAssessment.map
      (fun s => s.suitabilityAssessment.overallScore))) 75
  let suitabilityRating :=
    jsOrStr ((a.suitabilityAssessment.map
      (fun s => s.suitabilityAssessment.overallRating))) "SUITABLE"
  let summary :=
    if recommendations.length = 0 then
      "Portfolio is well-aligned with risk profile. Continue monitoring and maintain current allocation."
    else if recommendations.length ≤ 2 then
      "Portfolio is generally aligned with risk profile but shows opportunities for optimization."
    else
      "Portfolio requires attention to improve alignment with risk profile and reduce concentration risk."
  ({ recommendationId := (generateIdRec sE.2).1
     investorId := investorId
     profileId := profileId
     generatedDate := nowIso
     status := "ACTIVE"
     overallAssessment :=
       { suitabilityScore := suitabilityScore
         suitabilityRating := suitabilityRating
         summary := summary }
     recommendations := recommendations
     nextReviewDate := reviewDate
     createdAt := nowIso }, (generateIdRec sE.2).2)

/-- Identifier-free content of a recommendation, used to state that
repeated invocations differ only in the freshly drawn ids. -/
def recommendationContent (r : Recommendation) :
    String × String × String × String × ℚ × ℚ :=
  (r.category, r.priority, r.title, r.description, r.currentValue, r.targetValue)

/-- Identifier-free content of a recommendation record. -/
def recordContent (r : RecommendationRecord) :
    String × String × String × String × OverallAssessment ×
      List (String × String × String × String × ℚ × ℚ) × String × String :=
  (r.investorId, r.profileId, r.generatedDate, r.status, r.overallAssessment,
    r.recommendations.map recommendationContent, r.nextReviewDate, r.createdAt)

/-! ### Concrete sample inputs used by witnesses and counterexamples -/

/-- Equity holding carrying the full portfolio weight. -/
def sampleFullWeightHolding : Holding :=
  ⟨"AAPL", "STOCK", some "TECHNOLOGY", 1000, 100, none, none⟩

/-- Equity holding carrying half the portfolio weight. -/
def sampleHalfWeightHolding : Holding :=
  ⟨"MSFT", "STOCK", some "TECHNOLOGY", 500, 50, none, none⟩

/-- Bond holding used for the stress-test properties. -/
def sampleBondHolding : Holding :=
  ⟨"AGG", "BOND", some "FINANCIAL", 2000, 40, none, none⟩

/-- Tech crash scenario: bond shock -10, tech sector -40, generic equity
shock -45. -/
def scenarioTechCrash : Scenario :=
  ⟨"SCN-T", "Tech Crash", ⟨-45, -10, 150, 20⟩, [("TECHNOLOGY", -40)]⟩

/-- Broad crash scenario: same bond shock -10 as `scenarioTechCrash` but a
different sector-shock mapping and equity shock. -/
def scenarioBroadCrash : Scenario :=
  ⟨"SCN-B", "Broad Crash", ⟨-30, -10, 100, 15⟩, [("FINANCIAL", -25)]⟩

/-- Scenario defining an explicit sector shock of `0` for TECHNOLOGY next
to a generic equity shock of -45. -/
def scenarioZeroTechShock : Scenario :=
  ⟨"SCN-Z", "Zero Tech Shock", ⟨-45, 0, 0, 0⟩, [("TECHNOLOGY", 0)]⟩

/-- Scenario defining a nonzero TECHNOLOGY sector shock of -30 next to a
generic equity shock of -45. -/
def scenarioTechMinus30 : Scenario :=
  ⟨"SCN-M", "Tech minus 30", ⟨-45, 0, 0, 0⟩, [("TECHNOLOGY", -30)]⟩

/-- Scenario with a generic equity shock of exactly -20 and no sector
shocks. -/
def scenarioEquityMinus20 : Scenario :=
  ⟨"SCN-020", "Equity minus 20", ⟨-20, 0, 0, 0⟩, []⟩

/-- Scenario SCN-001 of the spec: equity shock -45, no sector shocks. -/
def scenarioSCN001 : Scenario :=
  ⟨"SCN-001", "Market Crash", ⟨-45, 0, 0, 0⟩, []⟩

/-- All-equity holding worth the full $485,000 portfolio. -/
def sampleEquityPortfolioHolding : Holding :=
  ⟨"SPY", "STOCK", some "TECHNOLOGY", 485000, 100, none, none⟩

/-! ## Theorems -/

/-- Helper: evaluation of `round2` at a rational whose two-decimal
rounding is the integer `n` of hundredths. -/
lemma round2_eq_of {q c : ℚ} (n : ℤ) (hc : (n : ℚ) / 100 = c)
    (h1 : (n : ℚ) ≤ q * 100 + 1/2) (h2 : q * 100 + 1/2 < (n : ℚ) + 1) :
    round2 q = c := by
  have hf : ⌊q * 100 + 1/2⌋ = n := Int.floor_eq_iff.2 ⟨h1, h2⟩
  rw [round2, round_eq, hf, hc]

/-- Helper: evaluation of `round` on a rational. -/
lemma round_rat_eq {q : ℚ} (n : ℤ) (h1 : (n : ℚ) ≤ q + 1/2)
    (h2 : q + 1/2 < (n : ℚ) + 1) : round q = n := by
  rw [round_eq]
  exact Int.floor_eq_iff.2 ⟨h1, h2⟩

/-- Helper: comparing a rounded rational against an integer threshold. -/
lemma le_round_iff (q : ℚ) (t : ℤ) : t ≤ round q ↔ (t : ℚ) ≤ q + 1/2 := by
  rw [round_eq, Int.le_floor]

/-- C7: the risk-category classification uses fixed, non-overlapping bands
closed on the lower side: score ≤ 30 → Conservative (code 1), 31–45 →
Moderately Conservative (code 2), 46–55 → Moderate (code 3), 56–65 →
Moderately Aggressive (code 4), > 65 → Aggressive (code 5); in particular
a raw score of 30 yields code 1 and a raw score of 31 yields code 2. -/
theorem calculateRiskCategory_bands (score : ℤ) :
    (score ≤ 30 → calculateRiskCategory score = ⟨"CONSERVATIVE", 1⟩) ∧
    (31 ≤ score ∧ score ≤ 45 →
      calculateRiskCategory score = ⟨"MODERATELY_CONSERVATIVE", 2⟩) ∧
    (46 ≤ score ∧ score ≤ 55 →
      calculateRiskCategory score = ⟨"MODERATE", 3⟩) ∧
    (56 ≤ score ∧ score ≤ 65 →
      calculateRiskCategory score = ⟨"MODERATELY_AGGRESSIVE", 4⟩) ∧
    (65 < score → calculateRiskCategory score = ⟨"AGGRESSIVE", 5⟩) ∧
    calculateRiskCategory 30 = ⟨"CONSERVATIVE", 1⟩ ∧
    calculateRiskCategory 31 = ⟨"MODERATELY_CONSERVATIVE", 2⟩ := by
  unfold calculateRiskCategory
  refine ⟨?_, ?_, ?_, ?_, ?_, by decide, by decide⟩ <;>
    (intro h; split_ifs <;> first | rfl | omega)

/-- Witness for C7 at the two boundary scores 30 and 31. -/
theorem calculateRiskCategory_bands_witness :
    calculateRiskCategory 30 = ⟨"CONSERVATIVE", 1⟩ ∧
    calculateRiskCategory 31 = ⟨"MODERATELY_CONSERVATIVE", 2⟩ :=
  ⟨(calculateRiskCategory_bands 30).1 (by decide),
    (calculateRiskCategory_bands 31).2.1 (by decide)⟩

/-- C10: for a missing or empty holdings list the portfolio beta
calculation returns exactly 1.0 while the portfolio volatility calculation
returns 0 — an empty portfolio gets the market beta, not a beta of 0. -/
theorem emptyPortfolio_beta_one_volatility_zero :
    calculatePortfolioBeta none = 1 ∧
    calculatePortfolioBeta (some []) = 1 ∧
    calculatePortfolioVolatility none = 0 ∧
    calculatePortfolioVolatility (some []) = 0 :=
  ⟨rfl, rfl, rfl, rfl⟩

/-! ### Herfindahl index (C2) -/

/-- Helper: a left fold accumulating `f` over a list is the accumulator
plus the sum of the mapped list. -/
lemma foldl_add_map_sum (f : Holding → ℚ) (l : List Holding) (a : ℚ) :
    l.foldl (fun s h => s + f h) a = a + (l.map f).sum := by
  induction l generalizing a with
  | nil => simp
  | cons h t ih => simp [ih, add_assoc]

/-- Helper: for a list of nonnegative rationals the sum of squares is at
most the square of the sum. -/
lemma sum_sq_le_sq_sum (l : List ℚ) (hl : ∀ x ∈ l, 0 ≤ x) :
    (l.map (fun x => x * x)).sum ≤ l.sum * l.sum := by
  induction l with
  | nil => simp
  | cons a t ih =>
    have ha : 0 ≤ a := hl a (List.mem_cons_self a t)
    have ht : ∀ x ∈ t, 0 ≤ x := fun x hx => hl x (List.mem_cons_of_mem a hx)
    have hts : 0 ≤ t.sum := List.sum_nonneg ht
    have hih := ih ht
    simp only [List.map_cons, List.sum_cons]
    nlinarith

/-- Helper: dividing every list element by a constant divides the sum. -/
lemma sum_map_div (l : List ℚ) (c : ℚ) :
    (l.map (fun x => x / c)).sum = l.sum / c := by
  induction l with
  | nil => simp
  | cons a t ih => simp [ih, add_div]

/-- Helper: the Herfindahl fold equals the sum of squared scaled
weights. -/
lemma calculateHerfindahlIndex_eq_sum (holdings : List Holding) :
    calculateHerfindahlIndex holdings =
      ((holdings.map (fun h => h.weight / 100)).map (fun x => x * x)).sum := by
  unfold calculateHerfindahlIndex
  rw [foldl_add_map_sum (fun h => (h.weight / 100) * (h.weight / 100)),
    List.map_map, zero_add]
  rfl

/-- Counterexample for C2 as stated: with two holdings of weight 100 each
(each weight alone a legal percentage), the Herfindahl index is 2, which
exceeds 1. -/
theorem calculateHerfindahlIndex_gt_one_counterexample :
    calculateHerfindahlIndex [sampleFullWeightHolding, sampleFullWeightHolding] = 2 ∧
    ¬ calculateHerfindahlIndex [sampleFullWeightHolding, sampleFullWeightHolding] ≤ 1 := by
  have h : calculateHerfindahlIndex [sampleFullWeightHolding, sampleFullWeightHolding] = 2 := by
    simp only [calculateHerfindahlIndex, sampleFullWeightHolding, List.foldl]
    norm_num
  exact ⟨h, by rw [h]; norm_num⟩

/-- C2 (amended): for every list of holdings whose weights are nonnegative
and sum to at most 100, the Herfindahl index Σ(weight/100)² satisfies
0 ≤ HHI ≤ 1; and for every Herfindahl value, effectivePositions is 1/HHI
when HHI > 0 and 0 when HHI = 0. -/
theorem calculateHerfindahlIndex_bounds (holdings : List Holding)
    (hw : ∀ h ∈ holdings, 0 ≤ h.weight)
    (hsum : (holdings.map (fun h => h.weight)).sum ≤ 100) :
    0 ≤ calculateHerfindahlIndex holdings ∧
    calculateHerfindahlIndex holdings ≤ 1 ∧
    (calculateHerfindahlIndex holdings > 0 →
      calculateEffectivePositions (calculateHerfindahlIndex holdings) =
        1 / calculateHerfindahlIndex holdings) ∧
    (calculateHerfindahlIndex holdings = 0 →
      calculateEffectivePositions (calculateHerfindahlIndex holdings) = 0) := by
  have hmem : ∀ x ∈ holdings.map (fun h => h.weight / 100), 0 ≤ x := by
    intro x hx
    rcases List.mem_map.1 hx with ⟨h, hh, rfl⟩
    exact div_nonneg (hw h hh) (by norm_num)
  have heq := calculateHerfindahlIndex_eq_sum holdings
  have hsum' : (holdings.map (fun h => h.weight / 100)).sum ≤ 1 := by
    have : holdings.map (fun h => h.weight / 100) =
        (holdings.map (fun h => h.weight)).map (fun x => x / 100) := by
      simp [List.map_map, Function.comp]
    rw [this, sum_map_div]
    linarith
  have hsum0 : 0 ≤ (holdings.map (fun h => h.weight / 100)).sum :=
    List.sum_nonneg hmem
  refine ⟨?_, ?_, ?_, ?_⟩
  · rw [heq]
    apply List.sum_nonneg
    intro x hx
    rcases List.mem_map.1 hx with ⟨y, hy, rfl⟩
    exact mul_self_nonneg y
  · rw [heq]
    calc ((holdings.map (fun h => h.weight / 100)).map (fun x => x * x)).sum
        ≤ (holdings.map (fun h => h.weight / 100)).sum *
            (holdings.map (fun h => h.weight / 100)).sum :=
          sum_sq_le_sq_sum _ hmem
      _ ≤ 1 := by nlinarith
  · intro hpos
    simp [calculateEffectivePositions, hpos]
  · intro hzero
    simp [calculateEffectivePositions, hzero]

/-- Witness for C2 at a two-holding portfolio of weight 50 each. -/
theorem calculateHerfindahlIndex_bounds_witness :
    (∀ h ∈ [sampleHalfWeightHolding, sampleHalfWeightHolding], 0 ≤ h.weight) ∧
    ([sampleHalfWeightHolding, sampleHalfWeightHolding].map
      (fun h => h.weight)).sum ≤ 100 ∧
    (0 ≤ calculateHerfindahlIndex [sampleHalfWeightHolding, sampleHalfWeightHolding] ∧
      calculateHerfindahlIndex [sampleHalfWeightHolding, sampleHalfWeightHolding] ≤ 1) := by
  have hw : ∀ h ∈ [sampleHalfWeightHolding, sampleHalfWeightHolding], 0 ≤ h.weight := by
    intro h hh
    fin_cases hh <;> norm_num [sampleHalfWeightHolding]
  have hsum : ([sampleHalfWeightHolding, sampleHalfWeightHolding].map
      (fun h => h.weight)).sum ≤ 100 := by
    norm_num [sampleHalfWeightHolding]
  have := calculateHerfindahlIndex_bounds
    [sampleHalfWeightHolding, sampleHalfWeightHolding] hw hsum
  exact ⟨hw, hsum, this.1, this.2.1⟩

/-! ### Stress shocks on bonds and non-bonds (C5, C6) -/

/-- C5: a bond holding's stressed value depends only on the scenario's
bondShock — two scenarios agreeing on bondShock produce the same stressed
value regardless of their sectorShocks mappings. -/
theorem bondStressedValue_dependsOnlyOnBondShock (holding : Holding)
    (s1 s2 : Scenario) (hbond : holding.securityType = "BOND")
    (hshock : s1.shockParameters.bondShock = s2.shockParameters.bondShock) :
    (applyStressToHolding holding s1).stressedValue =
      (applyStressToHolding holding s2).stressedValue := by
  simp [applyStressToHolding, hbond, hshock]

/-- Witness for C5: the sample bond under the tech-crash and broad-crash
scenarios (different sectorShocks, same bondShock). -/
theorem bondStressedValue_dependsOnlyOnBondShock_witness :
    sampleBondHolding.securityType = "BOND" ∧
    scenarioTechCrash.shockParameters.bondShock =
      scenarioBroadCrash.shockParameters.bondShock ∧
    (applyStressToHolding sampleBondHolding scenarioTechCrash).stressedValue =
      (applyStressToHolding sampleBondHolding scenarioBroadCrash).stressedValue :=
  ⟨rfl, rfl,
    bondStressedValue_dependsOnlyOnBondShock sampleBondHolding
      scenarioTechCrash scenarioBroadCrash rfl rfl⟩

/-- Counterexample for C6 as stated: for a non-bond TECHNOLOGY holding and
a scenario that defines a TECHNOLOGY sector shock of exactly 0 next to an
equity shock of -45, the code applies the equity shock (stressed value
550), not the defined sector shock of 0 (which would give 1000). -/
theorem applyStress_definedZeroSectorShock_counterexample :
    sampleFullWeightHolding.securityType ≠ "BOND" ∧
    lookupSectorShock scenarioZeroTechShock.sectorShocks "TECHNOLOGY" = some 0 ∧
    (applyStressToHolding sampleFullWeightHolding scenarioZeroTechShock).stressedValue = 550 ∧
    (applyStressToHolding sampleFullWeightHolding scenarioZeroTechShock).stressedValue ≠
      round2 (sampleFullWeightHolding.marketValue * (1 + 0 / 100)) := by
  have hs : (applyStressToHolding sampleFullWeightHolding
      scenarioZeroTechShock).stressedValue = 550 := by
    simp only [applyStressToHolding, sampleFullWeightHolding, scenarioZeroTechShock,
      lookupSectorShock, jsOr, List.find?, String.reduceEq, if_false, if_true,
      reduceIte]
    norm_num
    exact round2_eq_of 55000 (by norm_num) (by norm_num) (by norm_num)
  have hz : round2 (sampleFullWeightHolding.marketValue * (1 + 0 / 100)) = 1000 := by
    simp only [sampleFullWeightHolding]
    exact round2_eq_of 100000 (by norm_num) (by norm_num) (by norm_num)
  refine ⟨by decide, by decide, hs, ?_⟩
  rw [hs, hz]
  norm_num

/-- C6 (amended): for every non-bond holding the code uses the scenario's
sector-specific shock only when it is defined and nonzero; a defined
sector shock of 0 behaves like an undefined one and falls back to the
generic equityShock; the stressed value is marketValue × (1 + shock/100),
rounded to two decimals. -/
theorem applyStress_nonBond_shockSelection (holding : Holding)
    (scenario : Scenario) (hnb : holding.securityType ≠ "BOND") :
    (∀ v, lookupSectorShock scenario.sectorShocks (holding.sector.getD "OTHER") =
        some v → v ≠ 0 →
      (applyStressToHolding holding scenario).stressedValue =
        round2 (holding.marketValue * (1 + v / 100))) ∧
    (lookupSectorShock scenario.sectorShocks (holding.sector.getD "OTHER") = none ∨
      lookupSectorShock scenario.sectorShocks (holding.sector.getD "OTHER") = some 0 →
      (applyStressToHolding holding scenario).stressedValue =
        round2 (holding.marketValue *
          (1 + scenario.shockParameters.equityShock / 100))) := by
  constructor
  · intro v hv hv0
    simp [applyStressToHolding, hnb, jsOr, hv, hv0]
  · intro hcase
    rcases hcase with hnone | hzero
    · simp [applyStressToHolding, hnb, jsOr, hnone]
    · simp [applyStressToHolding, hnb, jsOr, hzero]

/-- Witness for C6: the nonzero tech shock of -30 is used (stressed value
700), and the defined-zero tech shock falls back to the -45 equity shock
(stressed value 550). -/
theorem applyStress_nonBond_shockSelection_witness :
    sampleFullWeightHolding.securityType ≠ "BOND" ∧
    lookupSectorShock scenarioTechMinus30.sectorShocks
      (sampleFullWeightHolding.sector.getD "OTHER") = some (-30) ∧
    (applyStressToHolding sampleFullWeightHolding scenarioTechMinus30).stressedValue =
      round2 (sampleFullWeightHolding.marketValue * (1 + (-30 : ℚ) / 100)) ∧
    lookupSectorShock scenarioZeroTechShock.sectorShocks
      (sampleFullWeightHolding.sector.getD "OTHER") = some 0 ∧
    (applyStressToHolding sampleFullWeightHolding scenarioZeroTechShock).stressedValue =
      round2 (sampleFullWeightHolding.marketValue *
        (1 + scenarioZeroTechShock.shockParameters.equityShock / 100)) := by
  refine ⟨by decide,
    by norm_num [lookupSectorShock, scenarioTechMinus30, sampleFullWeightHolding, List.find?],
    ?_,
    by norm_num [lookupSectorShock, scenarioZeroTechShock, sampleFullWeightHolding, List.find?],
    ?_⟩
  · exact (applyStress_nonBond_shockSelection sampleFullWeightHolding
      scenarioTechMinus30 (by decide)).1 (-30)
      (by norm_num [lookupSectorShock, scenarioTechMinus30, sampleFullWeightHolding, List.find?])
      (by norm_num)
  · exact (applyStress_nonBond_shockSelection sampleFullWeightHolding
      scenarioZeroTechShock (by decide)).2
      (Or.inr (by norm_num [lookupSectorShock, scenarioZeroTechShock,
        sampleFullWeightHolding, List.find?]))

/-! ### Stress-test recovery time (C8) -/

/-- Helper: the stress impact of the full-weight equity holding under the
-20% equity scenario. -/
lemma applyStress_equityMinus20_eval :
    applyStressToHolding sampleFullWeightHolding scenarioEquityMinus20 =
      ⟨"AAPL", "TECHNOLOGY", 1000, 800, -200, -20, "TECHNOLOGY"⟩ := by
  simp only [applyStressToHolding, sampleFullWeightHolding, scenarioEquityMinus20,
    lookupSectorShock, jsOr, List.find?, String.reduceEq, if_false, if_true,
    reduceIte, Option.getD_some, HoldingImpact.mk.injEq]
  refine ⟨trivial, trivial, trivial, ?_, ?_, ?_, trivial⟩
  · exact round2_eq_of 80000 (by norm_num) (by norm_num) (by norm_num)
  · exact round2_eq_of (-20000) (by norm_num) (by norm_num) (by norm_num)
  · exact round2_eq_of (-2000) (by norm_num) (by norm_num) (by norm_num)

/-- Counterexample for C8 as stated: a $1,000 all-equity portfolio under a
-20% equity shock loses exactly 20%, so |loss%| ≤ 20 and the claim's
bucket is "6-12 months", but the code (which tests `percentageLoss > -20`
strictly) reports "12-24 months (estimated)". -/
theorem recoveryTime_boundary_counterexample :
    (runStressTest scenarioEquityMinus20 1000
      [sampleFullWeightHolding]).portfolioImpact.percentageLoss = -20 ∧
    |(-20 : ℚ)| ≤ 20 ∧
    (runStressTest scenarioEquityMinus20 1000
      [sampleFullWeightHolding]).portfolioImpact.recoveryTime =
      "12-24 months (estimated)" ∧
    (runStressTest scenarioEquityMinus20 1000
      [sampleFullWeightHolding]).portfolioImpact.recoveryTime ≠
      "6-12 months (estimated)" := by
  have h1 := applyStress_equityMinus20_eval
  refine ⟨?_, by norm_num, ?_, ?_⟩
  · simp only [runStressTest, h1, List.map_cons, List.map_nil, List.sum_cons,
      List.sum_nil]
    norm_num
    exact round2_eq_of (-2000) (by norm_num) (by norm_num) (by norm_num)
  · simp only [runStressTest, h1, List.map_cons, List.map_nil, List.sum_cons,
      List.sum_nil]
    norm_num
  · simp only [runStressTest, h1, List.map_cons, List.map_nil, List.sum_cons,
      List.sum_nil]
    norm_num
    decide

/-- Helper: the stress impact of the $485,000 equity holding under
scenario SCN-001. -/
lemma applyStress_scn001_eval :
    applyStressToHolding sampleEquityPortfolioHolding scenarioSCN001 =
      ⟨"SPY", "TECHNOLOGY", 485000, 266750, -218250, -45, "TECHNOLOGY"⟩ := by
  simp only [applyStressToHolding, sampleEquityPortfolioHolding, scenarioSCN001,
    lookupSectorShock, jsOr, List.find?, String.reduceEq, if_false, if_true,
    reduceIte, Option.getD_some, HoldingImpact.mk.injEq]
  refine ⟨trivial, trivial, trivial, ?_, ?_, ?_, trivial⟩
  · exact round2_eq_of 26675000 (by norm_num) (by norm_num) (by norm_num)
  · exact round2_eq_of (-21825000) (by norm_num) (by norm_num) (by norm_num)
  · exact round2_eq_of (-4500) (by norm_num) (by norm_num) (by norm_num)

/-- C8 (amended): the recovery-time buckets are decided on the signed,
unrounded percentage loss with a strict lower edge: loss% > -20 →
"6-12 months", -30 < loss% ≤ -20 → "12-24 months", -40 < loss% ≤ -30 →
"24-36 months", loss% ≤ -40 → "36+ months", each labeled an estimate; and
the -45% equity shock of scenario SCN-001 on a $485,000 all-equity
portfolio yields stressedValue 266,750, dollarLoss -218,250,
percentageLoss -45.0, and recoveryTime "36+ months (estimated)". -/
theorem runStressTest_recoveryTime_buckets :
    (∀ (scenario : Scenario) (totalValue : ℚ) (holdings : List Holding)
      (rawLoss : ℚ),
      rawLoss = ((((runStressTest scenario totalValue
          holdings).holdingImpacts.map (fun h => h.stressedValue)).sum -
          totalValue) / totalValue) * 100 →
      (rawLoss > -20 →
        (runStressTest scenario totalValue holdings).portfolioImpact.recoveryTime =
          "6-12 months (estimated)") ∧
      (rawLoss ≤ -20 ∧ rawLoss > -30 →
        (runStressTest scenario totalValue holdings).portfolioImpact.recoveryTime =
          "12-24 months (estimated)") ∧
      (rawLoss ≤ -30 ∧ rawLoss > -40 →
        (runStressTest scenario totalValue holdings).portfolioImpact.recoveryTime =
          "24-36 months (estimated)") ∧
      (rawLoss ≤ -40 →
        (runStressTest scenario totalValue holdings).portfolioImpact.recoveryTime =
          "36+ months (estimated)")) ∧
    (runStressTest scenarioSCN001 485000
      [sampleEquityPortfolioHolding]).portfolioImpact.stressedValue = 266750 ∧
    (runStressTest scenarioSCN001 485000
      [sampleEquityPortfolioHolding]).portfolioImpact.dollarLoss = -218250 ∧
    (runStressTest scenarioSCN001 485000
      [sampleEquityPortfolioHolding]).portfolioImpact.percentageLoss = -45 ∧
    (runStressTest scenarioSCN001 485000
      [sampleEquityPortfolioHolding]).portfolioImpact.recoveryTime =
      "36+ months (estimated)" := by
  have h1 := applyStress_scn001_eval
  refine ⟨?_, ?_, ?_, ?_, ?_⟩
  · intro scenario totalValue holdings rawLoss hraw
    subst hraw
    simp only [runStressTest]
    refine ⟨?_, ?_, ?_, ?_⟩ <;> intro hc <;> split_ifs <;>
      first | rfl | (exfalso; rcases hc with ⟨hc1, hc2⟩ <;> linarith) |
        (exfalso; linarith)
  · simp only [runStressTest, h1, List.map_cons, List.map_nil, List.sum_cons,
      List.sum_nil]
    norm_num
    exact round2_eq_of 26675000 (by norm_num) (by norm_num) (by norm_num)
  · simp only [runStressTest, h1, List.map_cons, List.map_nil, List.sum_cons,
      List.sum_nil]
    norm_num
    exact round2_eq_of (-21825000) (by norm_num) (by norm_num) (by norm_num)
  · simp only [runStressTest, h1, List.map_cons, List.map_nil, List.sum_cons,
      List.sum_nil]
    norm_num
    exact round2_eq_of (-4500) (by norm_num) (by norm_num) (by norm_num)
  · simp only [runStressTest, h1, List.map_cons, List.map_nil, List.sum_cons,
      List.sum_nil]
    norm_num

/-- Witness for C8 at scenario SCN-001 on the $485,000 all-equity
portfolio: the raw loss is -45 ≤ -40 and the theorem's last bucket
applies. -/
theorem runStressTest_recoveryTime_buckets_witness :
    ((-45 : ℚ) = ((((runStressTest scenarioSCN001 485000
        [sampleEquityPortfolioHolding]).holdingImpacts.map
        (fun h => h.stressedValue)).sum - 485000) / 485000) * 100) ∧
    (-45 : ℚ) ≤ -40 ∧
    (runStressTest scenarioSCN001 485000
      [sampleEquityPortfolioHolding]).portfolioImpact.recoveryTime =
      "36+ months (estimated)" := by
  have hraw : (-45 : ℚ) = ((((runStressTest scenarioSCN001 485000
      [sampleEquityPortfolioHolding]).holdingImpacts.map
      (fun h => h.stressedValue)).sum - 485000) / 485000) * 100 := by
    simp only [runStressTest, applyStress_scn001_eval, List.map_cons, List.map_nil,
      List.sum_cons, List.sum_nil]
    norm_num
  exact ⟨hraw, by norm_num,
    (runStressTest_recoveryTime_buckets.1 scenarioSCN001 485000
      [sampleEquityPortfolioHolding] (-45) hraw).2.2.2 (by norm_num)⟩

/-! ### Concentration risk monotonicity (C9) -/

/-- C9: holding the Herfindahl index fixed, the overall concentration risk
tier is monotone in the number of breached checks — an input with at
least as many breached statuses gets a tier at least as high in the order
LOW < MODERATE < ELEVATED < HIGH. -/
theorem determineConcentrationRisk_monotone (s1 s2 s3 t1 t2 t3 : String)
    (hhi : ℚ)
    (hcount : ([s1, s2, s3].filter (fun s => s = "BREACHED")).length ≤
      ([t1, t2, t3].filter (fun s => s = "BREACHED")).length) :
    concentrationRiskRank (determineConcentrationRisk s1 s2 s3 hhi) ≤
      concentrationRiskRank (determineConcentrationRisk t1 t2 t3 hhi) := by
  unfold determineConcentrationRisk
  by_cases h1 : hhi > 15/100 <;> by_cases h2 : hhi > 10/100 <;>
    by_cases h3 : hhi > 5/100 <;>
    first
    | (exfalso; linarith)
    | (simp only [h1, h2, h3, or_true, or_false, iff_true, iff_false] <;>
        split_ifs <;>
        first
        | (simp only [concentrationRiskRank, String.reduceEq, if_false, if_true];
            omega)
        | (exfalso; omega))

/-- Witness for C9: zero breaches against three breaches at HHI 0. -/
theorem determineConcentrationRisk_monotone_witness :
    (([("COMPLIANT" : String), "COMPLIANT", "COMPLIANT"].filter
        (fun s => s = "BREACHED")).length ≤
      ([("BREACHED" : String), "BREACHED", "BREACHED"].filter
        (fun s => s = "BREACHED")).length) ∧
    concentrationRiskRank
        (determineConcentrationRisk "COMPLIANT" "COMPLIANT" "COMPLIANT" 0) ≤
      concentrationRiskRank
        (determineConcentrationRisk "BREACHED" "BREACHED" "BREACHED" 0) :=
  ⟨by decide,
    determineConcentrationRisk_monotone "COMPLIANT" "COMPLIANT" "COMPLIANT"
      "BREACHED" "BREACHED" "BREACHED" 0 (by decide)⟩

/-! ### Suitability overall score and rating (C1) -/

/-- Helper: the risk-alignment evaluator only ever scores 85, 70 or 45. -/
lemma evaluateRiskAlignment_score_mem (a b c d : ℚ) :
    (evaluateRiskAlignment a b c d).score ∈ ([85, 70, 45] : List ℚ) := by
  unfold evaluateRiskAlignment
  dsimp only
  split_ifs <;> simp

/-- Helper: the allocation-alignment evaluator only ever scores 90, 72 or
50. -/
lemma evaluateAllocationAlignment_score_mem (a r : Allocation) :
    (evaluateAllocationAlignment a r).score ∈ ([90, 72, 50] : List ℚ) := by
  unfold evaluateAllocationAlignment
  dsimp only
  split_ifs <;> simp

/-- Helper: the concentration-compliance evaluator only ever scores 95, 60
or 45. -/
lemma evaluateConcentrationCompliance_score_mem (t : ℚ)
    (sc : List (String × ℚ)) (m : ℚ) :
    (evaluateConcentrationCompliance t sc m).score ∈ ([95, 60, 45] : List ℚ) := by
  unfold evaluateConcentrationCompliance
  dsimp only
  split_ifs <;> simp

/-- Helper: the time-horizon evaluator only ever scores 85, 65, 80, 40 or
75. -/
lemma evaluateTimeHorizonFit_score_mem (h : String) (v : ℚ) :
    (evaluateTimeHorizonFit h v).score ∈ ([85, 65, 80, 40, 75] : List ℚ) := by
  unfold evaluateTimeHorizonFit
  split_ifs <;> simp

/-- Helper: the code's rating (banded on the unrounded average) agrees
with the band of the rounded score whenever the average avoids the four
half-open gaps just below the thresholds. -/
lemma ratingOfAvg_round_agree (avg : ℚ)
    (g80 : ¬(159/2 ≤ avg ∧ avg < 80)) (g70 : ¬(139/2 ≤ avg ∧ avg < 70))
    (g60 : ¬(119/2 ≤ avg ∧ avg < 60)) (g50 : ¬(99/2 ≤ avg ∧ avg < 50)) :
    ratingOfAvg avg = ratingOfRoundedScoreSpec (round avg) := by
  have key : ∀ t : ℤ, ¬((t : ℚ) - 1/2 ≤ avg ∧ avg < t) →
      ((t ≤ round avg) ↔ ((t : ℚ) ≤ avg)) := by
    intro t hg
    rw [le_round_iff]
    constructor
    · intro h
      by_contra hlt
      push_neg at hlt
      exact hg ⟨by linarith, hlt⟩
    · intro h
      linarith
  have h80 := key 80 (by push_cast; convert g80 using 3; norm_num)
  have h70 := key 70 (by push_cast; convert g70 using 3; norm_num)
  have h60 := key 60 (by push_cast; convert g60 using 3; norm_num)
  have h50 := key 50 (by push_cast; convert g50 using 3; norm_num)
  unfold ratingOfAvg ratingOfRoundedScoreSpec
  simp only [ge_iff_le, h80, h70, h60, h50]
  push_cast
  rfl

/-- Helper: no sum of reachable dimension scores lands in any of the four
half-open rounding gaps. -/
lemma suitabilityScores_avoid_gaps (s1 s2 s3 s4 : ℚ)
    (h1 : s1 ∈ ([85, 70, 45] : List ℚ)) (h2 : s2 ∈ ([90, 72, 50] : List ℚ))
    (h3 : s3 ∈ ([95, 60, 45] : List ℚ))
    (h4 : s4 ∈ ([85, 65, 80, 40, 75] : List ℚ)) :
    (¬(159/2 ≤ (s1 + s2 + s3 + s4)/4 ∧ (s1 + s2 + s3 + s4)/4 < 80)) ∧
    (¬(139/2 ≤ (s1 + s2 + s3 + s4)/4 ∧ (s1 + s2 + s3 + s4)/4 < 70)) ∧
    (¬(119/2 ≤ (s1 + s2 + s3 + s4)/4 ∧ (s1 + s2 + s3 + s4)/4 < 60)) ∧
    (¬(99/2 ≤ (s1 + s2 + s3 + s4)/4 ∧ (s1 + s2 + s3 + s4)/4 < 50)) := by
  fin_cases h1 <;> fin_cases h2 <;> fin_cases h3 <;> fin_cases h4 <;> norm_num

/-- C1: for every suitability evaluation built from the four dimension
evaluators, the overall score is the unweighted mean of the four dimension
scores rounded to the nearest integer, and the overall rating coincides
with the 5-tier band (≥80 Highly Suitable, ≥70 Suitable, ≥60 Suitable with
caveats, ≥50 Review required, otherwise Not Suitable) of that rounded
score; in particular dimension scores [85, 90, 95, 85] yield overallScore
89 and rating HIGHLY_SUITABLE. -/
theorem calculateOverallSuitability_mean_and_band
    (pv mvt md mdt : ℚ) (actual recommended : Allocation)
    (thw : ℚ) (sectorConc : List (String × ℚ)) (mcl : ℚ) (horizon : String) :
    (calculateOverallSuitability
        ⟨evaluateRiskAlignment pv mvt md mdt,
          evaluateAllocationAlignment actual recommended,
          evaluateConcentrationCompliance thw sectorConc mcl,
          evaluateTimeHorizonFit horizon pv⟩).overallScore =
      round (((evaluateRiskAlignment pv mvt md mdt).score +
        (evaluateAllocationAlignment actual recommended).score +
        (evaluateConcentrationCompliance thw sectorConc mcl).score +
        (evaluateTimeHorizonFit horizon pv).score) / 4) ∧
    (calculateOverallSuitability
        ⟨evaluateRiskAlignment pv mvt md mdt,
          evaluateAllocationAlignment actual recommended,
          evaluateConcentrationCompliance thw sectorConc mcl,
          evaluateTimeHorizonFit horizon pv⟩).overallRating =
      ratingOfRoundedScoreSpec
        (calculateOverallSuitability
          ⟨evaluateRiskAlignment pv mvt md mdt,
            evaluateAllocationAlignment actual recommended,
            evaluateConcentrationCompliance thw sectorConc mcl,
            evaluateTimeHorizonFit horizon pv⟩).overallScore ∧
    (calculateOverallSuitability
        ⟨⟨85, "ALIGNED"⟩, ⟨90, "ALIGNED", ⟨60, 30, 5, 5⟩, ⟨60, 30, 5, 5⟩⟩,
          ⟨95, "COMPLIANT"⟩, ⟨85, "ALIGNED"⟩⟩).overallScore = 89 ∧
    (calculateOverallSuitability
        ⟨⟨85, "ALIGNED"⟩, ⟨90, "ALIGNED", ⟨60, 30, 5, 5⟩, ⟨60, 30, 5, 5⟩⟩,
          ⟨95, "COMPLIANT"⟩, ⟨85, "ALIGNED"⟩⟩).overallRating =
      "HIGHLY_SUITABLE" := by
  obtain ⟨g80, g70, g60, g50⟩ := suitabilityScores_avoid_gaps
    (evaluateRiskAlignment pv mvt md mdt).score
    (evaluateAllocationAlignment actual recommended).score
    (evaluateConcentrationCompliance thw sectorConc mcl).score
    (evaluateTimeHorizonFit horizon pv).score
    (evaluateRiskAlignment_score_mem pv mvt md mdt)
    (evaluateAllocationAlignment_score_mem actual recommended)
    (evaluateConcentrationCompliance_score_mem thw sectorConc mcl)
    (evaluateTimeHorizonFit_score_mem horizon pv)
  refine ⟨rfl, ?_, ?_, ?_⟩
  · exact ratingOfAvg_round_agree _ g80 g70 g60 g50
  · show round (((85 : ℚ) + 90 + 95 + 85) / 4) = 89
    exact round_rat_eq 89 (by norm_num) (by norm_num)
  · show ratingOfAvg (((85 : ℚ) + 90 + 95 + 85) / 4) = "HIGHLY_SUITABLE"
    unfold ratingOfAvg
    norm_num

/-! ### Value at Risk ordering (C4) -/

/-- Helper: `round` is monotone. -/
lemma round_le_round_of_le {x y : ℝ} (h : x ≤ y) : round x ≤ round y := by
  rw [round_eq, round_eq]
  exact Int.floor_le_floor (by linarith)

/-- Helper: `round2R` is monotone. -/
lemma round2R_mono {x y : ℝ} (h : x ≤ y) : round2R x ≤ round2R y := by
  unfold round2R
  have h1 : round (x * 100) ≤ round (y * 100) :=
    round_le_round_of_le (by nlinarith)
  have h2 : ((round (x * 100) : ℤ) : ℝ) ≤ ((round (y * 100) : ℤ) : ℝ) := by
    exact_mod_cast h1
  linarith

/-- Helper: `round2R` of a nonpositive real is nonpositive. -/
lemma round2R_nonpos {x : ℝ} (h : x ≤ 0) : round2R x ≤ 0 := by
  unfold round2R
  have h1 : round (x * 100) ≤ round (0 : ℝ) :=
    round_le_round_of_le (by nlinarith)
  rw [round_zero] at h1
  have h2 : ((round (x * 100) : ℤ) : ℝ) ≤ 0 := by exact_mod_cast h1
  linarith

/-- C4: with monthlyVol = annualVol/√12, the parametric VaR percentages
are VaR95 = round2(-1.645 × monthlyVol) and VaR99 = round2(-2.326 ×
monthlyVol) (the code reports them rounded to two decimals), and for
every total value and every nonnegative portfolio volatility,
VaR99_percent ≤ VaR95_percent ≤ 0. -/
theorem calculateVaR_order (totalValue portfolioVolatility : ℝ)
    (hvol : 0 ≤ portfolioVolatility) :
    (calculateVaR totalValue portfolioVolatility).var95_percent =
      round2R (-1.645 * (portfolioVolatility / Real.sqrt 12)) ∧
    (calculateVaR totalValue portfolioVolatility).var99_percent =
      round2R (-2.326 * (portfolioVolatility / Real.sqrt 12)) ∧
    (calculateVaR totalValue portfolioVolatility).var99_percent ≤
      (calculateVaR totalValue portfolioVolatility).var95_percent ∧
    (calculateVaR totalValue portfolioVolatility).var95_percent ≤ 0 := by
  have hm : 0 ≤ portfolioVolatility / Real.sqrt 12 :=
    div_nonneg hvol (Real.sqrt_nonneg _)
  refine ⟨rfl, rfl, ?_, ?_⟩
  · show round2R (-2.326 * (portfolioVolatility / Real.sqrt 12)) ≤
      round2R (-1.645 * (portfolioVolatility / Real.sqrt 12))
    exact round2R_mono (by nlinarith)
  · show round2R (-1.645 * (portfolioVolatility / Real.sqrt 12)) ≤ 0
    exact round2R_nonpos (by nlinarith)

/-- Witness for C4 at total value 485000 and volatility 0. -/
theorem calculateVaR_order_witness :
    (0 : ℝ) ≤ 0 ∧
    (calculateVaR 485000 0).var99_percent ≤ (calculateVaR 485000 0).var95_percent ∧
    (calculateVaR 485000 0).var95_percent ≤ 0 :=
  ⟨le_refl 0, (calculateVaR_order 485000 0 (le_refl 0)).2.2.1,
    (calculateVaR_order 485000 0 (le_refl 0)).2.2.2⟩

/-! ### Recommendation generation and hidden state (C3) -/

/-- Helper: rule 1 produces the same id-free content at any counter. -/
lemma ruleSinglePosition_content (x : Option ConcentrationOuter) (c c' : Nat) :
    ((ruleSinglePosition x c).1).map recommendationContent =
      ((ruleSinglePosition x c').1).map recommendationContent := by
  cases x with
  | none => rfl
  | some outer =>
    cases h : outer.concentrationAnalysis.singlePosition with
    | none => simp [ruleSinglePosition, h]
    | some s =>
      simp only [ruleSinglePosition, h]
      split_ifs <;> simp [recommendationContent]

/-- Helper: rule 1 never decreases the counter. -/
lemma ruleSinglePosition_counter (x : Option ConcentrationOuter) (c : Nat) :
    c ≤ (ruleSinglePosition x c).2 := by
  cases x with
  | none => exact Nat.le_refl c
  | some outer =>
    cases h : outer.concentrationAnalysis.singlePosition with
    | none => simp [ruleSinglePosition, h]
    | some s =>
      simp only [ruleSinglePosition, h, generateIdRec]
      split_ifs <;> omega

/-- Helper: rule 2 produces the same id-free content at any counter. -/
lemma ruleSectorConcentration_content (x : Option ConcentrationOuter)
    (c c' : Nat) :
    ((ruleSectorConcentration x c).1).map recommendationContent =
      ((ruleSectorConcentration x c').1).map recommendationContent := by
  cases x with
  | none => rfl
  | some outer =>
    cases h : outer.concentrationAnalysis.sectorConcentration with
    | none => simp [ruleSectorConcentration, h]
    | some s =>
      simp only [ruleSectorConcentration, h]
      split_ifs <;> simp [recommendationContent]

/-- Helper: rule 2 never decreases the counter. -/
lemma ruleSectorConcentration_counter (x : Option ConcentrationOuter) (c : Nat) :
    c ≤ (ruleSectorConcentration x c).2 := by
  cases x with
  | none => exact Nat.le_refl c
  | some outer =>
    cases h : outer.concentrationAnalysis.sectorConcentration with
    | none => simp [ruleSectorConcentration, h]
    | some s =>
      simp only [ruleSectorConcentration, h, generateIdRec]
      split_ifs <;> omega

/-- Helper: rule 3 produces the same id-free content at any counter. -/
lemma ruleAllocation_content (x : Option SuitabilityOuter) (c c' : Nat) :
    ((ruleAllocation x c).1).map recommendationContent =
      ((ruleAllocation x c').1).map recommendationContent := by
  cases x with
  | none => rfl
  | some s =>
    cases h : s.suitabilityAssessment.dimensions with
    | none => simp [ruleAllocation, h]
    | some dims =>
      cases h2 : dims.allocationAlignment with
      | none => simp [ruleAllocation, h, h2]
      | some alloc =>
        simp only [ruleAllocation, h, h2]
        split_ifs <;> simp [recommendationContent]

/-- Helper: rule 3 never decreases the counter. -/
lemma ruleAllocation_counter (x : Option SuitabilityOuter) (c : Nat) :
    c ≤ (ruleAllocation x c).2 := by
  cases x with
  | none => exact Nat.le_refl c
  | some s =>
    cases h : s.suitabilityAssessment.dimensions with
    | none => simp [ruleAllocation, h]
    | some dims =>
      cases h2 : dims.allocationAlignment with
      | none => simp [ruleAllocation, h, h2]
      | some alloc =>
        simp only [ruleAllocation, h, h2, generateIdRec]
        split_ifs <;> omega

/-- Helper: rule 4 produces the same id-free content at any counter. -/
lemma ruleVolatility_content (x : Option PortfolioRiskLite) (c c' : Nat) :
    ((ruleVolatility x c).1).map recommendationContent =
      ((ruleVolatility x c').1).map recommendationContent := by
  cases x with
  | none => rfl
  | some pr =>
    simp only [ruleVolatility]
    split_ifs <;> simp [recommendationContent]

/-- Helper: rule 4 never decreases the counter. -/
lemma ruleVolatility_counter (x : Option PortfolioRiskLite) (c : Nat) :
    c ≤ (ruleVolatility x c).2 := by
  cases x with
  | none => exact Nat.le_refl c
  | some pr =>
    simp only [ruleVolatility, generateIdRec]
    split_ifs <;> omega

/-- Helper: rule 5 produces the same id-free content at any counter. -/
lemma ruleIncome_content (b : Bool) (n : Nat) (c c' : Nat) :
    ((ruleIncome b n c).1).map recommendationContent =
      ((ruleIncome b n c').1).map recommendationContent := by
  unfold ruleIncome
  split_ifs <;> simp [recommendationContent]

/-- Helper: rule 5 never decreases the counter. -/
lemma ruleIncome_counter (b : Bool) (n : Nat) (c : Nat) :
    c ≤ (ruleIncome b n c).2 := by
  unfold ruleIncome
  simp only [generateIdRec]
  split_ifs <;> omega

/-- Counterexample for C3 as stated: invoking the recommendation generator
twice on the same analysis inputs (and even with the clock frozen) returns
different records, because the datastore id counter advances between the
calls. -/
theorem generateRecommendations_not_idempotent :
    (generateRecommendations "INV-001" "PRF-001" ⟨none, none, none⟩
      "2025-12-01T00:00:00.000Z" "2026-03-01" 1).1 ≠
    (generateRecommendations "INV-001" "PRF-001" ⟨none, none, none⟩
      "2025-12-01T00:00:00.000Z" "2026-03-01"
      ((generateRecommendations "INV-001" "PRF-001" ⟨none, none, none⟩
        "2025-12-01T00:00:00.000Z" "2026-03-01" 1).2)).1 := by
  decide

/-- C3 (amended): the recommendation generator is a further exception to
idempotence, alongside the documented profile-generation jitter — its
output differs across datastore counters only in the freshly generated
recommendationIds (the id-free record content is independent of the
counter), while the counter strictly advances on every invocation, so two
successive invocations never return byte-identical records. -/
theorem generateRecommendations_pure_modulo_ids (investorId profileId : String)
    (a : AnalysisData) (nowIso reviewDate : String) (c c' : Nat) :
    recordContent
        (generateRecommendations investorId profileId a nowIso reviewDate c).1 =
      recordContent
        (generateRecommendations investorId profileId a nowIso reviewDate c').1 ∧
    c < (generateRecommendations investorId profileId a nowIso reviewDate c).2 := by
  simp only [generateRecommendations, recordContent]
  set rA := ruleSinglePosition a.concentrationAnalysis c with hrA
  set rA' := ruleSinglePosition a.concentrationAnalysis c' with hrA'
  set rB := ruleSectorConcentration a.concentrationAnalysis rA.2 with hrB
  set rB' := ruleSectorConcentration a.concentrationAnalysis rA'.2 with hrB'
  set rC := ruleAllocation a.suitabilityAssessment rB.2 with hrC
  set rC' := ruleAllocation a.suitabilityAssessment rB'.2 with hrC'
  set rD := ruleVolatility a.portfolioRisk rC.2 with hrD
  set rD' := ruleVolatility a.portfolioRisk rC'.2 with hrD'
  have hA : rA.1.map recommendationContent = rA'.1.map recommendationContent :=
    ruleSinglePosition_content a.concentrationAnalysis c c'
  have hB : rB.1.map recommendationContent = rB'.1.map recommendationContent :=
    ruleSectorConcentration_content a.concentrationAnalysis rA.2 rA'.2
  have hC : rC.1.map recommendationContent = rC'.1.map recommendationContent :=
    ruleAllocation_content a.suitabilityAssessment rB.2 rB'.2
  have hD : rD.1.map recommendationContent = rD'.1.map recommendationContent :=
    ruleVolatility_content a.portfolioRisk rC.2 rC'.2
  have lA : rA.1.length = rA'.1.length := by
    simpa using congrArg List.length hA
  have lB : rB.1.length = rB'.1.length := by
    simpa using congrArg List.length hB
  have lC : rC.1.length = rC'.1.length := by
    simpa using congrArg List.length hC
  have lD : rD.1.length = rD'.1.length := by
    simpa using congrArg List.length hD
  have hn : (rA.1 ++ rB.1 ++ rC.1 ++ rD.1).length =
      (rA'.1 ++ rB'.1 ++ rC'.1 ++ rD'.1).length := by
    simp [List.length_append, lA, lB, lC, lD]
  have hE : ((ruleIncome a.suitabilityAssessment.isSome
        (rA.1 ++ rB.1 ++ rC.1 ++ rD.1).length rD.2).1).map recommendationContent =
      ((ruleIncome a.suitabilityAssessment.isSome
        (rA'.1 ++ rB'.1 ++ rC'.1 ++ rD'.1).length rD'.2).1).map
        recommendationContent := by
    rw [hn]
    exact ruleIncome_content a.suitabilityAssessment.isSome
      (rA'.1 ++ rB'.1 ++ rC'.1 ++ rD'.1).length rD.2 rD'.2
  have lE : (ruleIncome a.suitabilityAssessment.isSome
        (rA.1 ++ rB.1 ++ rC.1 ++ rD.1).length rD.2).1.length =
      (ruleIncome a.suitabilityAssessment.isSome
        (rA'.1 ++ rB'.1 ++ rC'.1 ++ rD'.1).length rD'.2).1.length := by
    simpa using congrArg List.length hE
  have hIncLen : ∀ (n c1 c2 : Nat),
      (ruleIncome a.suitabilityAssessment.isSome n c1).1.length =
        (ruleIncome a.suitabilityAssessment.isSome n c2).1.length := by
    intro n c1 c2
    simpa using congrArg List.length
      (ruleIncome_content a.suitabilityAssessment.isSome n c1 c2)
  have hlenAll : (rA.1 ++ rB.1 ++ rC.1 ++ rD.1 ++
        (ruleIncome a.suitabilityAssessment.isSome
          (rA.1 ++ rB.1 ++ rC.1 ++ rD.1).length rD.2).1).length =
      (rA'.1 ++ rB'.1 ++ rC'.1 ++ rD'.1 ++
        (ruleIncome a.suitabilityAssessment.isSome
          (rA'.1 ++ rB'.1 ++ rC'.1 ++ rD'.1).length rD'.2).1).length := by
    simp only [List.length_append]
    rw [lA, lB, lC, lD, hIncLen _ rD.2 rD'.2]
  constructor
  · simp only [Prod.mk.injEq, OverallAssessment.mk.injEq, List.map_append,
      hA, hB, hC, hD, hE, hlenAll, eq_self_iff_true, and_true, true_and,
      and_self]
  · have k1 := ruleSinglePosition_counter a.concentrationAnalysis c
    have k2 := ruleSectorConcentration_counter a.concentrationAnalysis rA.2
    have k3 := ruleAllocation_counter a.suitabilityAssessment rB.2
    have k4 := ruleVolatility_counter a.portfolioRisk rC.2
    have k5 := ruleIncome_counter a.suitabilityAssessment.isSome
      (rA.1 ++ rB.1 ++ rC.1 ++ rD.1).length rD.2
    rw [← hrA] at k1
    rw [← hrB] at k2
    rw [← hrC] at k3
    rw [← hrD] at k4
    simp only [generateIdRec]
    omega

end RiskMgmt
